/-
Verification of the core IR header of this repository (src/src/wasm.h):
the tagged expression variant system, construction-time default types,
the type-finalization rules for structured control flow, the module
entity registry, function local naming, and the table/memory size limits.

Definitions are shallow embeddings of the C++ in wasm.h.  Where a member
function's body lives outside src/ (only declared in wasm.h, implemented
in wasm.cpp which is not part of the given sources), the definition is
modelled from the natural-language spec and its doc comment says so.
-/
import Mathlib

namespace Wasm

/-- The value-type facade (wasm-type.h, external per the spec §6): basic
value kinds plus the "none" (void) and "unreachable" sentinels. -/
inductive Ty where
  | none
  | unreachable
  | i32
  | i64
  | f32
  | f64
  | v128
  | funcref
  | externref
  | exnref
  | anyref
  | eqref
  | i31ref
  deriving DecidableEq

/-- A type is concrete when it is a real value type: neither the "none"
sentinel nor the "unreachable" sentinel. -/
def Ty.isConcrete : Ty → Bool
  | Ty.none => false
  | Ty.unreachable => false
  | _ => true

theorem Ty.isConcrete_ne_unreachable {t : Ty} (h : t.isConcrete = true) :
    t ≠ Ty.unreachable := by
  cases t <;> simp_all [Ty.isConcrete]

/-- Expression::Id (wasm.h lines 512-578): the closed kind discriminant,
one constructor per enumerator, in source order. -/
inductive Id where
  | InvalidId
  | BlockId
  | IfId
  | LoopId
  | BreakId
  | SwitchId
  | CallId
  | CallIndirectId
  | LocalGetId
  | LocalSetId
  | GlobalGetId
  | GlobalSetId
  | LoadId
  | StoreId
  | ConstId
  | UnaryId
  | BinaryId
  | SelectId
  | DropId
  | ReturnId
  | MemorySizeId
  | MemoryGrowId
  | NopId
  | UnreachableId
  | AtomicRMWId
  | AtomicCmpxchgId
  | AtomicWaitId
  | AtomicNotifyId
  | AtomicFenceId
  | SIMDExtractId
  | SIMDReplaceId
  | SIMDShuffleId
  | SIMDTernaryId
  | SIMDShiftId
  | SIMDLoadId
  | MemoryInitId
  | DataDropId
  | MemoryCopyId
  | MemoryFillId
  | PopId
  | RefNullId
  | RefIsNullId
  | RefFuncId
  | RefEqId
  | TryId
  | ThrowId
  | RethrowId
  | BrOnExnId
  | TupleMakeId
  | TupleExtractId
  | I31NewId
  | I31GetId
  | RefTestId
  | RefCastId
  | BrOnCastId
  | RttCanonId
  | RttSubId
  | StructNewId
  | StructGetId
  | StructSetId
  | ArrayNewId
  | ArrayGetId
  | ArraySetId
  | ArrayLenId
  | NumExpressionIds
  deriving DecidableEq

/-- The integer value of each Expression::Id enumerator: InvalidId = 0 and
the rest follow sequentially, exactly as the C++ enum assigns them.  The
kind queries in wasm.h compare these integers (int(id) == int(SpecificId)). -/
def idToInt : Id → Nat
  | Id.InvalidId => 0
  | Id.BlockId => 1
  | Id.IfId => 2
  | Id.LoopId => 3
  | Id.BreakId => 4
  | Id.SwitchId => 5
  | Id.CallId => 6
  | Id.CallIndirectId => 7
  | Id.LocalGetId => 8
  | Id.LocalSetId => 9
  | Id.GlobalGetId => 10
  | Id.GlobalSetId => 11
  | Id.LoadId => 12
  | Id.StoreId => 13
  | Id.ConstId => 14
  | Id.UnaryId => 15
  | Id.BinaryId => 16
  | Id.SelectId => 17
  | Id.DropId => 18
  | Id.ReturnId => 19
  | Id.MemorySizeId => 20
  | Id.MemoryGrowId => 21
  | Id.NopId => 22
  | Id.UnreachableId => 23
  | Id.AtomicRMWId => 24
  | Id.AtomicCmpxchgId => 25
  | Id.AtomicWaitId => 26
  | Id.AtomicNotifyId => 27
  | Id.AtomicFenceId => 28
  | Id.SIMDExtractId => 29
  | Id.SIMDReplaceId => 30
  | Id.SIMDShuffleId => 31
  | Id.SIMDTernaryId => 32
  | Id.SIMDShiftId => 33
  | Id.SIMDLoadId => 34
  | Id.MemoryInitId => 35
  | Id.DataDropId => 36
  | Id.MemoryCopyId => 37
  | Id.MemoryFillId => 38
  | Id.PopId => 39
  | Id.RefNullId => 40
  | Id.RefIsNullId => 41
  | Id.RefFuncId => 42
  | Id.RefEqId => 43
  | Id.TryId => 44
  | Id.ThrowId => 45
  | Id.RethrowId => 46
  | Id.BrOnExnId => 47
  | Id.TupleMakeId => 48
  | Id.TupleExtractId => 49
  | Id.I31NewId => 50
  | Id.I31GetId => 51
  | Id.RefTestId => 52
  | Id.RefCastId => 53
  | Id.BrOnCastId => 54
  | Id.RttCanonId => 55
  | Id.RttSubId => 56
  | Id.StructNewId => 57
  | Id.StructGetId => 58
  | Id.StructSetId => 59
  | Id.ArrayNewId => 60
  | Id.ArrayGetId => 61
  | Id.ArraySetId => 62
  | Id.ArrayLenId => 63
  | Id.NumExpressionIds => 64

/-- Inverse of idToInt on the enum's value range (helper for injectivity). -/
def intToId : Nat → Id
  | 0 => Id.InvalidId
  | 1 => Id.BlockId
  | 2 => Id.IfId
  | 3 => Id.LoopId
  | 4 => Id.BreakId
  | 5 => Id.SwitchId
  | 6 => Id.CallId
  | 7 => Id.CallIndirectId
  | 8 => Id.LocalGetId
  | 9 => Id.LocalSetId
  | 10 => Id.GlobalGetId
  | 11 => Id.GlobalSetId
  | 12 => Id.LoadId
  | 13 => Id.StoreId
  | 14 => Id.ConstId
  | 15 => Id.UnaryId
  | 16 => Id.BinaryId
  | 17 => Id.SelectId
  | 18 => Id.DropId
  | 19 => Id.ReturnId
  | 20 => Id.MemorySizeId
  | 21 => Id.MemoryGrowId
  | 22 => Id.NopId
  | 23 => Id.UnreachableId
  | 24 => Id.AtomicRMWId
  | 25 => Id.AtomicCmpxchgId
  | 26 => Id.AtomicWaitId
  | 27 => Id.AtomicNotifyId
  | 28 => Id.AtomicFenceId
  | 29 => Id.SIMDExtractId
  | 30 => Id.SIMDReplaceId
  | 31 => Id.SIMDShuffleId
  | 32 => Id.SIMDTernaryId
  | 33 => Id.SIMDShiftId
  | 34 => Id.SIMDLoadId
  | 35 => Id.MemoryInitId
  | 36 => Id.DataDropId
  | 37 => Id.MemoryCopyId
  | 38 => Id.MemoryFillId
  | 39 => Id.PopId
  | 40 => Id.RefNullId
  | 41 => Id.RefIsNullId
  | 42 => Id.RefFuncId
  | 43 => Id.RefEqId
  | 44 => Id.TryId
  | 45 => Id.ThrowId
  | 46 => Id.RethrowId
  | 47 => Id.BrOnExnId
  | 48 => Id.TupleMakeId
  | 49 => Id.TupleExtractId
  | 50 => Id.I31NewId
  | 51 => Id.I31GetId
  | 52 => Id.RefTestId
  | 53 => Id.RefCastId
  | 54 => Id.BrOnCastId
  | 55 => Id.RttCanonId
  | 56 => Id.RttSubId
  | 57 => Id.StructNewId
  | 58 => Id.StructGetId
  | 59 => Id.StructSetId
  | 60 => Id.ArrayNewId
  | 61 => Id.ArrayGetId
  | 62 => Id.ArraySetId
  | 63 => Id.ArrayLenId
  | _ => Id.NumExpressionIds

theorem intToId_idToInt (a : Id) : intToId (idToInt a) = a := by
  cases a <;> rfl

theorem idToInt_injective {a b : Id} (h : idToInt a = idToInt b) : a = b := by
  have h2 := congrArg intToId h
  rwa [intToId_idToInt, intToId_idToInt] at h2

/-- Expression (wasm.h lines 510-622): every node carries an immutable
kind tag fixed at construction and a mutable output type, which defaults
to Type::none (line 582). -/
structure Expression where
  _id : Id
  type : Ty := Ty.none
  deriving DecidableEq

/-- Expression::is (wasm.h line 588): boolean kind test, comparing the
integer values int(id) == int(T::SpecificId). -/
def Expression.is (e : Expression) (k : Id) : Bool :=
  decide (idToInt e._id = idToInt k)

/-- Expression::dynCast (wasm.h line 594): checked downcast, returning
the node when the tag matches and nullptr (here Option.none) otherwise. -/
def Expression.dynCast (e : Expression) (k : Id) : Option Expression :=
  if idToInt e._id = idToInt k then Option.some e else Option.none

/-- Expression::cast (wasm.h line 606): unchecked downcast; on a tag
mismatch the C++ assert fires, modelled as an Except.error. -/
def Expression.cast (e : Expression) (k : Id) : Except String Expression :=
  if idToInt e._id = idToInt k then Except.ok e
  else Except.error "Assertion failed: int(id) == int(T::SpecificId)"

/-- SpecificExpression<SID> constructor (wasm.h line 637): sets the tag
to SID and leaves the output type at its Expression default, Type::none. -/
def SpecificExpression.construct (k : Id) : Expression := { _id := k }

/-- Break() (wasm.h line 709): the default constructor nulls the operands
and does not touch the type, which therefore stays Type::none. -/
def Break.construct : Expression := SpecificExpression.construct Id.BreakId

/-- Break(MixedArena&) (wasm.h line 710): delegates to Break() and then
sets type = Type::unreachable. -/
def Break.constructArena : Expression :=
  { Break.construct with type := Ty.unreachable }

/-- Switch(MixedArena&) (wasm.h lines 721-723): the only constructor;
sets type = Type::unreachable. -/
def Switch.constructArena : Expression :=
  { SpecificExpression.construct Id.SwitchId with type := Ty.unreachable }

/-- Return() (wasm.h line 1087): sets type = Type::unreachable. -/
def Return.construct : Expression :=
  { SpecificExpression.construct Id.ReturnId with type := Ty.unreachable }

/-- Return(MixedArena&) (wasm.h line 1088): delegates to Return(). -/
def Return.constructArena : Expression := Return.construct

/-- Unreachable() (wasm.h line 1118): sets type = Type::unreachable;
the arena constructor delegates to it. -/
def Unreachable.construct : Expression :=
  { SpecificExpression.construct Id.UnreachableId with type := Ty.unreachable }

/-- BrOnExn() (wasm.h line 1200): sets type = Type::unreachable; the
arena constructor delegates to it. -/
def BrOnExn.construct : Expression :=
  { SpecificExpression.construct Id.BrOnExnId with type := Ty.unreachable }

/-- MemorySize() (wasm.h line 1095): sets type = Type::i32; the arena
constructor delegates to it. -/
def MemorySize.construct : Expression :=
  { SpecificExpression.construct Id.MemorySizeId with type := Ty.i32 }

/-- MemoryGrow() (wasm.h line 1106): sets type = Type::i32; the arena
constructor delegates to it. -/
def MemoryGrow.construct : Expression :=
  { SpecificExpression.construct Id.MemoryGrowId with type := Ty.i32 }

/-- The stubbed aggregate/typed-reference node kinds (wasm.h lines
1251-1333), whose finalize bodies are each a single WASM_UNREACHABLE. -/
inductive StubKind where
  | RefTest
  | RefCast
  | BrOnCast
  | RttCanon
  | RttSub
  | StructNew
  | StructGet
  | StructSet
  | ArrayNew
  | ArrayGet
  | ArraySet
  | ArrayLen
  deriving DecidableEq

/-- The WASM_UNREACHABLE message of each stub's finalize (wasm.h lines
1255-1332). -/
def stubMessage : StubKind → String
  | StubKind.RefTest => "TODO (gc): ref.test"
  | StubKind.RefCast => "TODO (gc): ref.cast"
  | StubKind.BrOnCast => "TODO (gc): br_on_cast"
  | StubKind.RttCanon => "TODO (gc): rtt.canon"
  | StubKind.RttSub => "TODO (gc): rtt.sub"
  | StubKind.StructNew => "TODO (gc): struct.new"
  | StubKind.StructGet => "TODO (gc): struct.get"
  | StubKind.StructSet => "TODO (gc): struct.set"
  | StubKind.ArrayNew => "TODO (gc): array.new"
  | StubKind.ArrayGet => "TODO (gc): array.get"
  | StubKind.ArraySet => "TODO (gc): array.set"
  | StubKind.ArrayLen => "TODO (gc): array.len"

/-- finalize of a stubbed kind (wasm.h lines 1251-1333): the body is an
unconditional WASM_UNREACHABLE, an unrecoverable fatal abort, modelled as
an Except.error carrying the abort message; no type is ever produced. -/
def StubKind.finalize (k : StubKind) : Except String Ty :=
  Except.error (stubMessage k)

/-- Modelled from the spec: Block::finalize is declared at wasm.h line 655
but its body is in wasm.cpp, which is not among the given sources.  Spec
§4.3: "type = type of the last statement if that statement is reachable;
if the block is provably never reached via fallthrough (all paths diverge)
or is empty, type = none unless an internal computation determines
unreachable (e.g., the whole block diverges and nothing breaks out of it
with a concrete type)".  breaks lists the types carried by branches that
target this block; stmts is the statement list. -/
def blockFinalize (breaks : List Ty) (stmts : List Expression) : Ty :=
  match stmts.getLast? with
  | Option.none => Ty.none
  | Option.some last =>
    if last.type = Ty.unreachable then
      if breaks.any Ty.isConcrete then Ty.none else Ty.unreachable
    else
      last.type

/-- Modelled from the spec: the common type of two branches of an If,
"where unreachable is the identity element (a branch that diverges does
not constrain the result type)" (spec §4.3).  The spec only defines the
result when the branches are compatible; the incompatible case falls back
to the "none" sentinel. -/
def commonType (a b : Ty) : Ty :=
  if a = Ty.unreachable then b
  else if b = Ty.unreachable then a
  else if a = b then a
  else Ty.none

/-- Modelled from the spec: If::finalize is declared at wasm.h line 686
but its body is in wasm.cpp, which is not among the given sources.  Spec
§4.3/§8: "An If with only a then-branch always finalizes to none unless
the then-branch is unreachable, in which case it finalizes to unreachable;
an If with both branches finalizes to the shared type of the two branches
when compatible."  The arguments are the types of the condition, the
then-branch, and the optional else-branch (Option.none models the null
ifFalse pointer). -/
def ifFinalize (condition : Ty) (ifTrue : Ty) (ifFalse : Option Ty) : Ty :=
  match ifFalse with
  | Option.none =>
    if ifTrue = Ty.unreachable then Ty.unreachable else Ty.none
  | Option.some f => commonType ifTrue f

/-- Block node (wasm.h lines 646-668): a branch-target name abstracted to
the list of types branches carry to it, the statement list, and the
mutable output type. -/
structure BlockNode where
  breaks : List Ty
  stmts : List Expression
  type : Ty := Ty.none

/-- Block::finalize as a state update: recompute the output type from the
children (modelled from the spec, see blockFinalize). -/
def BlockNode.finalize (b : BlockNode) : BlockNode :=
  { b with type := blockFinalize b.breaks b.stmts }

/-- If node (wasm.h lines 670-687): condition, then-branch and optional
else-branch abstracted to their output types, plus the mutable type. -/
structure IfNode where
  condition : Ty
  ifTrue : Ty
  ifFalse : Option Ty
  type : Ty := Ty.none

/-- If::finalize as a state update (modelled from the spec, see
ifFinalize). -/
def IfNode.finalize (i : IfNode) : IfNode :=
  { i with type := ifFinalize i.condition i.ifTrue i.ifFalse }

/-- Break node (wasm.h lines 707-717): optional value and condition
operands abstracted to their output types. -/
structure BreakNode where
  value : Option Ty
  condition : Option Ty
  type : Ty := Ty.none

/-- Modelled from the spec: Break::finalize is declared at wasm.h line 716
but its body is in wasm.cpp, which is not among the given sources.  Spec
§4.3: "Break, Switch, Return: these nodes divert control flow outward and
always finalize to unreachable". -/
def BreakNode.finalize (b : BreakNode) : BreakNode :=
  { b with type := Ty.unreachable }

/-- Switch node (wasm.h lines 719-731): target labels, default label,
condition and optional value operands abstracted to their output types. -/
structure SwitchNode where
  targets : List String
  default_ : String
  condition : Ty
  value : Option Ty
  type : Ty := Ty.unreachable

/-- Modelled from the spec: Switch::finalize is declared at wasm.h line
730 but its body is in wasm.cpp, which is not among the given sources.
Spec §4.3: a Switch always finalizes to unreachable. -/
def SwitchNode.finalize (s : SwitchNode) : SwitchNode :=
  { s with type := Ty.unreachable }

/-- Return node (wasm.h lines 1085-1091): an optional value operand
abstracted to its output type. -/
structure ReturnNode where
  value : Option Ty
  type : Ty

/-- Return's constructors (wasm.h lines 1087-1088): both set
type = Type::unreachable; value defaults to nullptr but any operand may
be attached afterwards. -/
def ReturnNode.construct (value : Option Ty) : ReturnNode :=
  { value := value, type := Ty.unreachable }

/-- Return declares no finalize of its own (wasm.h lines 1085-1091); it
inherits Expression::finalize() {} (wasm.h line 586), a no-op. -/
def ReturnNode.finalize (r : ReturnNode) : ReturnNode := r

section AList

variable {κ ν : Type} [DecidableEq κ]

/-- Association-list model of std::map: insert-or-overwrite under a key
(the semantics of map[k] = v). -/
def alistInsert : List (κ × ν) → κ → ν → List (κ × ν)
  | [], k, v => [(k, v)]
  | p :: rest, k, v =>
    if p.1 = k then (k, v) :: rest else p :: alistInsert rest k v

/-- Association-list model of std::map lookup (map.find(k)). -/
def alistLookup : List (κ × ν) → κ → Option ν
  | [], _ => Option.none
  | p :: rest, k => if p.1 = k then Option.some p.2 else alistLookup rest k

/-- Association-list model of std::map erase (map.erase(k)). -/
def alistErase (m : List (κ × ν)) (k : κ) : List (κ × ν) :=
  m.filter (fun p => decide (p.1 ≠ k))

theorem alistLookup_insert_self (m : List (κ × ν)) (k : κ) (v : ν) :
    alistLookup (alistInsert m k v) k = Option.some v := by
  induction m with
  | nil => simp [alistInsert, alistLookup]
  | cons p rest ih =>
    by_cases h : p.1 = k
    · simp [alistInsert, alistLookup, h]
    · simp [alistInsert, alistLookup, h, ih]

theorem alistLookup_erase_self (m : List (κ × ν)) (k : κ) :
    alistLookup (alistErase m k) k = Option.none := by
  induction m with
  | nil => simp [alistErase, alistLookup]
  | cons p rest ih =>
    by_cases h : p.1 = k
    · simpa [alistErase, List.filter, h] using ih
    · simpa [alistErase, List.filter, h, alistLookup] using ih

end AList

/-- The kind of a top-level module entity; the registry contract is the
same for each of the four kinds (spec §4.4). -/
inductive EntityKind where
  | exportK
  | functionK
  | globalK
  | eventK
  deriving DecidableEq

/-- A registered entity: its kind, its name (the registry key) and a
payload standing for the rest of its state, so that distinct entities
with equal names stay distinguishable. -/
structure Entity where
  kind : EntityKind
  name : String
  payload : Nat
  deriving DecidableEq

/-- One per-kind registry of a Module (wasm.h lines 1629-1709): the
owning sequence (e.g. std::vector of functions) and the name lookup map
(e.g. functionsMap), kept in lockstep. -/
structure Registry where
  seq : List Entity := []
  map : List (String × Entity) := []

/-- Modelled from the spec: Module::add* is declared at wasm.h lines
1684-1692 but its body is in wasm.cpp, which is not among the given
sources.  Spec §4.4: "add(entity) inserts into the owning sequence and
the lookup map under the entity's current name". -/
def Registry.add (r : Registry) (e : Entity) : Registry :=
  { seq := r.seq ++ [e], map := alistInsert r.map e.name e }

/-- Modelled from the spec: Module::get*OrNull is declared at wasm.h
lines 1679-1682 but its body is in wasm.cpp, which is not among the given
sources.  Spec §4.4: "getOrNull(name) returns an optional/nullable
result". -/
def Registry.getOrNull (r : Registry) (n : String) : Option Entity :=
  alistLookup r.map n

/-- Modelled from the spec: Module::get* is declared at wasm.h lines
1674-1677 but its body is in wasm.cpp, which is not among the given
sources.  Spec §4.4: "get(name) returns the entity, failing fatally if
absent"; the fatal failure is modelled as an Except.error. -/
def Registry.get (r : Registry) (n : String) : Except String Entity :=
  match alistLookup r.map n with
  | Option.some e => Except.ok e
  | Option.none => Except.error "fatal: entity does not exist"

/-- Modelled from the spec: Module::remove* is declared at wasm.h lines
1696-1699 but its body is in wasm.cpp, which is not among the given
sources.  Spec §4.4: "remove(name) removes from both sequence and map". -/
def Registry.remove (r : Registry) (n : String) : Registry :=
  { seq := r.seq.filter (fun e => decide (e.name ≠ n)),
    map := alistErase r.map n }

/-- Function (wasm.h lines 1412-1484): the signature's parameter types,
the non-param locals (vars), and the two optional local-naming maps
localNames : map<Index, Name> and localIndices : map<Name, Index>
(wasm.h lines 1433-1434). -/
structure Function where
  params : List Ty
  vars : List Ty
  localNames : List (Nat × String) := []
  localIndices : List (String × Nat) := []

/-- Function::getNumLocals: params plus vars (spec §4.5: "local count
split into params (fixed by signature) and vars (declared locals)"). -/
def Function.getNumLocals (f : Function) : Nat :=
  f.params.length + f.vars.length

/-- Modelled from the spec: Function::getLocalType is declared at wasm.h
line 1474 but its body is in wasm.cpp, which is not among the given
sources.  Spec §4.5: getLocalType(index) reads the ordered local sequence,
params first then vars; an out-of-range index is a caller error, modelled
as Option.none. -/
def Function.getLocalType (f : Function) (i : Nat) : Option Ty :=
  (f.params ++ f.vars).get? i

/-- Modelled from the spec: Function::setLocalName is declared at wasm.h
line 1480 but its body is in wasm.cpp, which is not among the given
sources.  Spec §4.5: "setLocalName inserts/overwrites an entry in both
directions". -/
def Function.setLocalName (f : Function) (i : Nat) (n : String) : Function :=
  { f with
    localNames := alistInsert f.localNames i n,
    localIndices := alistInsert f.localIndices n i }

/-- Modelled from the spec: Function::getLocalName is declared at wasm.h
line 1471 but its body is in wasm.cpp, which is not among the given
sources.  It reads the index-to-name map; a missing entry is modelled as
Option.none. -/
def Function.getLocalName (f : Function) (i : Nat) : Option String :=
  alistLookup f.localNames i

/-- Modelled from the spec: Function::getLocalIndex is declared at wasm.h
line 1472 but its body is in wasm.cpp, which is not among the given
sources.  It reads the name-to-index map; a missing entry is modelled as
Option.none. -/
def Function.getLocalIndex (f : Function) (n : String) : Option Nat :=
  alistLookup f.localIndices n

/-- Modelled from the spec: Function::clearNames is declared at wasm.h
line 1482 but its body is in wasm.cpp, which is not among the given
sources.  Spec §4.5: "Clearing names (bulk) removes all entries without
touching indices or types." -/
def Function.clearNames (f : Function) : Function :=
  { f with localNames := [], localIndices := [] }

/-- A C++ unsigned 32-bit conversion: Index(i) for Index = uint32_t. -/
def uint32OfInt (i : Int) : Nat := (i % (2 : Int) ^ 32).toNat

/-- A C++ unsigned 64-bit conversion: address64_t(i). -/
def uint64OfInt (i : Int) : Nat := (i % (2 : Int) ^ 64).toNat

/-- Table::kUnlimitedSize = Index(-1) (wasm.h line 1508). -/
def Table.kUnlimitedSize : Nat := uint32OfInt (-1)

/-- Table::kMaxSize = Index(-1) (wasm.h line 1510). -/
def Table.kMaxSize : Nat := uint32OfInt (-1)

/-- Table (wasm.h lines 1505-1540): sizes are held in 64-bit Address
fields; the member initializers give initial = 0 and max = kMaxSize. -/
structure Table where
  initial : Nat := 0
  max : Nat := Table.kMaxSize

/-- A default-constructed Table (wasm.h line 1531: the constructor only
sets the name, leaving the member initializers). -/
def Table.construct : Table := {}

/-- Table::hasMax (wasm.h line 1532): max != kUnlimitedSize. -/
def Table.hasMax (t : Table) : Bool := t.max != Table.kUnlimitedSize

/-- Memory::kPageSize = 64 * 1024 (wasm.h line 1544). -/
def Memory.kPageSize : Nat := 64 * 1024

/-- Memory::kUnlimitedSize = address64_t(-1) (wasm.h line 1545). -/
def Memory.kUnlimitedSize : Nat := uint64OfInt (-1)

/-- Memory::kMaxSize32 = (uint64_t(4) * 1024 * 1024 * 1024) / kPageSize
(wasm.h lines 1547-1548). -/
def Memory.kMaxSize32 : Nat := (4 * 1024 * 1024 * 1024) / Memory.kPageSize

/-- Memory (wasm.h lines 1542-1593): the member initializers give
initial = 0 and max = kMaxSize32. -/
structure Memory where
  initial : Nat := 0
  max : Nat := Memory.kMaxSize32

/-- A default-constructed Memory (wasm.h line 1581: the constructor only
sets the name, leaving the member initializers). -/
def Memory.construct : Memory := {}

/-- Memory::hasMax (wasm.h line 1582): max != kUnlimitedSize. -/
def Memory.hasMax (m : Memory) : Bool := m.max != Memory.kUnlimitedSize

/-- A concrete i32-typed leaf node (a Const), used as a sample input. -/
def sampleConstI32 : Expression := { _id := Id.ConstId, type := Ty.i32 }

/-- A concrete Block-tagged node, used as a sample input. -/
def sampleBlockExpr : Expression := SpecificExpression.construct Id.BlockId

/-- A concrete two-local function (one i32 param, one i64 var), used as a
sample input. -/
def sampleFunction : Function := { params := [Ty.i32], vars := [Ty.i64] }

/-- Claim C1: for every Block, finalize sets the type to "none" when the
statement list is empty; to "unreachable" when the only statement is a
Return; and to T when the last statement is a reachable value-producing
expression of concrete type T and no branch into the block carries a
conflicting type. -/
theorem block_finalize_claim (breaks : List Ty) (stmts : List Expression)
    (last : Expression)
    (hlast : stmts.getLast? = Option.some last)
    (hconc : last.type.isConcrete = true)
    (hnoconf : ∀ t ∈ breaks, t.isConcrete = true → t = last.type) :
    blockFinalize breaks [] = Ty.none
    ∧ blockFinalize [] [Return.construct] = Ty.unreachable
    ∧ blockFinalize breaks stmts = last.type := by
  refine ⟨rfl, rfl, ?_⟩
  have hne := Ty.isConcrete_ne_unreachable hconc
  simp [blockFinalize, hlast, hne]

/-- Claim C1 witness: the Block finalization cases evaluated at concrete
inputs (an i32 branch type, a single i32 Const statement). -/
theorem block_finalize_claim_witness :
    blockFinalize [Ty.i32] [] = Ty.none
    ∧ blockFinalize [] [Return.construct] = Ty.unreachable
    ∧ blockFinalize [Ty.i32] [sampleConstI32] = sampleConstI32.type :=
  block_finalize_claim [Ty.i32] [sampleConstI32] sampleConstI32 rfl rfl
    (by decide)

/-- Claim C2: for every If, finalize with ifFalse absent gives "none"
unless the then-branch is unreachable, in which case "unreachable"; with
both branches present it gives the common type of the branches, with
"unreachable" acting as the identity element. -/
theorem if_finalize_claim (c t f : Ty) :
    ifFinalize c t Option.none
      = (if t = Ty.unreachable then Ty.unreachable else Ty.none)
    ∧ ifFinalize c Ty.unreachable (Option.some f) = f
    ∧ ifFinalize c t (Option.some Ty.unreachable) = t
    ∧ ifFinalize c t (Option.some t) = t := by
  refine ⟨rfl, by simp [ifFinalize, commonType], ?_, ?_⟩
  · by_cases h : t = Ty.unreachable <;> simp [ifFinalize, commonType, h]
  · by_cases h : t = Ty.unreachable <;> simp [ifFinalize, commonType, h]

/-- Claim C3: every Break, Switch and Return node finalizes to
"unreachable", whatever the types of its value, condition or target
operands. -/
theorem break_switch_return_finalize_claim (br : BreakNode)
    (sw : SwitchNode) (v : Option Ty) :
    br.finalize.type = Ty.unreachable
    ∧ sw.finalize.type = Ty.unreachable
    ∧ (ReturnNode.construct v).finalize.type = Ty.unreachable :=
  ⟨rfl, rfl, rfl⟩

/-- Claim C4: module registry round-trip for every entity kind: after
add(e), the fatal lookup get(e.name) returns e itself; after
remove(name), getOrNull(name) is empty; and get(name) fails fatally
exactly when getOrNull(name) reports absence. -/
theorem registry_roundtrip_claim (r : Registry) (e : Entity) (n : String) :
    (r.add e).get e.name = Except.ok e
    ∧ (r.remove n).getOrNull n = Option.none
    ∧ (r.getOrNull n = Option.none
       ↔ ∃ msg, r.get n = Except.error msg) := by
  refine ⟨?_, ?_, ?_⟩
  · simp [Registry.add, Registry.get, alistLookup_insert_self]
  · simp [Registry.remove, Registry.getOrNull, alistLookup_erase_self]
  · rcases h : alistLookup r.map n with _ | e2 <;>
      simp [Registry.getOrNull, Registry.get, h]

/-- Claim C5: for every node whose kind tag is K, the boolean test for K
is true and for any other kind K2 false; dynCast to K returns the node
itself and to K2 returns null; the unchecked downcast to K2 fails
fatally. -/
theorem kind_tag_queries_claim (k k2 : Id) (e : Expression)
    (hid : e._id = k) (hne : k2 ≠ k) :
    e.is k = true
    ∧ e.is k2 = false
    ∧ e.dynCast k = Option.some e
    ∧ e.dynCast k2 = Option.none
    ∧ ∃ msg, e.cast k2 = Except.error msg := by
  subst hid
  have hint : idToInt e._id ≠ idToInt k2 :=
    fun h => hne (idToInt_injective h.symm)
  refine ⟨by simp [Expression.is], ?_, ?_, ?_, ?_⟩
  · simp [Expression.is, hint]
  · simp [Expression.dynCast]
  · simp [Expression.dynCast, hint]
  · exact ⟨ "Assertion failed: int(id) == int(T::SpecificId)",
      by simp [Expression.cast, hint]⟩

/-- Claim C5 witness: the kind-tag queries evaluated on a concrete
Block-tagged node against the If kind. -/
theorem kind_tag_queries_claim_witness :
    sampleBlockExpr.is Id.BlockId = true
    ∧ sampleBlockExpr.is Id.IfId = false
    ∧ sampleBlockExpr.dynCast Id.BlockId = Option.some sampleBlockExpr
    ∧ sampleBlockExpr.dynCast Id.IfId = Option.none
    ∧ ∃ msg, sampleBlockExpr.cast Id.IfId = Except.error msg :=
  kind_tag_queries_claim Id.BlockId Id.IfId sampleBlockExpr rfl (by decide)

/-- Claim C6: finalization is idempotent: with no intervening child
mutation, a second finalize leaves the type field as the first one set
it, for Block, If, Break, Switch and Return nodes. -/
theorem finalize_idempotent_claim (b : BlockNode) (i : IfNode)
    (br : BreakNode) (sw : SwitchNode) (r : ReturnNode) :
    b.finalize.finalize = b.finalize
    ∧ i.finalize.finalize = i.finalize
    ∧ br.finalize.finalize = br.finalize
    ∧ sw.finalize.finalize = sw.finalize
    ∧ r.finalize.finalize = r.finalize :=
  ⟨rfl, rfl, rfl, rfl, rfl⟩

/-- Claim C7: local-naming round-trip: for a valid local index i, after
setLocalName(i, n) both getLocalName(i) = n and getLocalIndex(n) = i;
clearNames empties both direction maps while getLocalType stays
unchanged at every valid index. -/
theorem local_naming_claim (f : Function) (i : Nat) (n : String) (j : Nat)
    (hi : i < f.getNumLocals) (hj : j < f.getNumLocals) :
    (f.setLocalName i n).getLocalName i = Option.some n
    ∧ (f.setLocalName i n).getLocalIndex n = Option.some i
    ∧ f.clearNames.localNames = []
    ∧ f.clearNames.localIndices = []
    ∧ f.clearNames.getLocalType j = f.getLocalType j := by
  refine ⟨?_, ?_, rfl, rfl, rfl⟩
  · simp [Function.setLocalName, Function.getLocalName,
      alistLookup_insert_self]
  · simp [Function.setLocalName, Function.getLocalIndex,
      alistLookup_insert_self]

/-- Claim C7 witness: the local-naming round-trip on a concrete two-local
function, naming local 0 as "x" and checking local 1's type. -/
theorem local_naming_claim_witness :
    (sampleFunction.setLocalName 0 "x").getLocalName 0 = Option.some "x"
    ∧ (sampleFunction.setLocalName 0 "x").getLocalIndex "x" = Option.some 0
    ∧ sampleFunction.clearNames.localNames = []
    ∧ sampleFunction.clearNames.localIndices = []
    ∧ sampleFunction.clearNames.getLocalType 1
      = sampleFunction.getLocalType 1 :=
  local_naming_claim sampleFunction 0 "x" 1 (by decide) (by decide)

/-- Claim C8: for every stubbed aggregate/typed-reference kind, finalize
terminates fatally (an unconditional abort) and never returns a type. -/
theorem stub_finalize_aborts_claim (k : StubKind) :
    (∃ msg, StubKind.finalize k = Except.error msg)
    ∧ ∀ t : Ty, StubKind.finalize k ≠ Except.ok t := by
  refine ⟨⟨stubMessage k, rfl⟩, ?_⟩
  intro t h
  simp [StubKind.finalize] at h

/-- Claim C9: a newly constructed expression node has type "none" by
default; arena-constructed Break and Switch, Return, Unreachable and
BrOnExn are created with type "unreachable"; MemorySize and MemoryGrow
are created with type i32; a default-constructed (non-arena) Break starts
with type "none". -/
theorem construction_default_types_claim (k : Id) :
    (SpecificExpression.construct k).type = Ty.none
    ∧ Break.construct.type = Ty.none
    ∧ Break.constructArena.type = Ty.unreachable
    ∧ Switch.constructArena.type = Ty.unreachable
    ∧ Return.construct.type = Ty.unreachable
    ∧ Return.constructArena.type = Ty.unreachable
    ∧ Unreachable.construct.type = Ty.unreachable
    ∧ BrOnExn.construct.type = Ty.unreachable
    ∧ MemorySize.construct.type = Ty.i32
    ∧ MemoryGrow.construct.type = Ty.i32 :=
  ⟨rfl, rfl, rfl, rfl, rfl, rfl, rfl, rfl, rfl, rfl⟩

/-- Claim C10: a default-constructed Memory has max = kMaxSize32
= (4 GiB) / 65536 = 65536 pages, which differs from kUnlimitedSize, so
hasMax is true; a default-constructed Table has max = kMaxSize
= Index(-1) = kUnlimitedSize, so hasMax is false. -/
theorem default_size_limits_claim :
    Memory.kPageSize = 64 * 1024
    ∧ Memory.kMaxSize32 = 4 * 1024 * 1024 * 1024 / Memory.kPageSize
    ∧ Memory.kMaxSize32 = 65536
    ∧ Memory.kMaxSize32 ≠ Memory.kUnlimitedSize
    ∧ Memory.construct.hasMax = true
    ∧ Table.construct.max = Table.kUnlimitedSize
    ∧ Table.construct.hasMax = false := by
  refine ⟨rfl, rfl, ?_, ?_, ?_, ?_, ?_⟩ <;> decide

end Wasm
